import Mathlib

/-!
Shallow embedding of the identity and credential subsystem of the `sushi`
repository: the policy validators and user lifecycle from
`src/backend/src/models/user.rs`, the JWT issuer/verifier from
`src/src/auth.rs`, and the in-memory `UserStore` (user directory plus
password-reset token ledger) from `src/backend/src/endpoints/auth.rs`.

Modelling conventions:
* `std::collections::HashMap` is modelled as an association list with
  replace-on-insert semantics (`insertAL`), first-match lookup (`lookupAL`)
  and single-entry removal (`removeAL`); reachable stores have distinct keys,
  matching the map.
* `Uuid::new_v4()` and `chrono::Utc::now()` are side effects; each operation
  takes the drawn identifier / current time as an explicit argument.
  Timestamps are epoch seconds as `Nat`.
* Argon2 hashing is abstracted: a stored hash is either a well-formed hash of
  some password or a corrupt string; verification compares passwords under
  the hash and signals `CryptoFormat` on a corrupt hash, mirroring the
  `Ok(bool)` / `Err` split of `verify_password` in `models/user.rs`.
* JWTs are modelled with an ideal MAC: a token records its payload (either
  well-formed claims or malformed) and the secret it was signed with;
  verification succeeds only on the process-wide secret. The `jsonwebtoken`
  crate's `Validation::new` used by `validate_token` carries its documented
  default `leeway` of 60 seconds for the `exp` check; the model keeps it.
* Rust `char` classifiers (`is_uppercase`, `is_lowercase`) are modelled on
  the ASCII range; `str::len` is UTF-8 byte length (`utf8Len`).
-/

deriving instance DecidableEq for Except

namespace Sushi

/-! Association-list model of the two `HashMap`s inside `UserStore`. -/

def lookupAL {β : Type} (m : List (String × β)) (k : String) : Option β :=
  match m with
  | [] => none
  | (k1, v) :: rest => if k1 = k then some v else lookupAL rest k

def containsKeyAL {β : Type} (m : List (String × β)) (k : String) : Bool :=
  (lookupAL m k).isSome

def insertAL {β : Type} (m : List (String × β)) (k : String) (v : β) :
    List (String × β) :=
  match m with
  | [] => [(k, v)]
  | (k1, v1) :: rest =>
    if k1 = k then (k, v) :: rest else (k1, v1) :: insertAL rest k v

def removeAL {β : Type} (m : List (String × β)) (k : String) :
    List (String × β) :=
  match m with
  | [] => []
  | (k1, v1) :: rest => if k1 = k then rest else (k1, v1) :: removeAL rest k

def keysAL {β : Type} (m : List (String × β)) : List String :=
  m.map Prod.fst

/-! Policy Validator, from `src/backend/src/models/user.rs`. -/

/-- UTF-8 byte length of a string, the semantics of Rust `str::len`. -/
def utf8Len (s : String) : Nat :=
  s.toList.foldl (fun n c => n + c.utf8Size) 0

/-- The fixed punctuation set of `validate_password_strength`. -/
def SPECIAL_CHARS : String := "!@#$%^&*()_+-=[]\x7b\x7d|;:,.<>?"

/-- Embedding of `validate_password_strength` (models/user.rs lines 130-163). -/
def validate_password_strength (password : String) : Except String Unit :=
  if utf8Len password < 8 then
    .error "Password must be at least 8 characters long"
  else if utf8Len password > 128 then
    .error "Password must be no more than 128 characters long"
  else
    let has_uppercase := password.toList.any (fun c => c.isUpper)
    let has_lowercase := password.toList.any (fun c => c.isLower)
    let has_digit := password.toList.any (fun c => c.isDigit)
    let has_special := password.toList.any (fun c => SPECIAL_CHARS.toList.contains c)
    if !has_uppercase then
      .error "Password must contain at least one uppercase letter"
    else if !has_lowercase then
      .error "Password must contain at least one lowercase letter"
    else if !has_digit then
      .error "Password must contain at least one digit"
    else if !has_special then
      .error "Password must contain at least one special character"
    else
      .ok ()

/-- Splitting a character list at a separator, the semantics of Rust
`str::split(char)`: `"".split(sep)` yields one empty piece. -/
def splitOnChar (sep : Char) : List Char → List (List Char)
  | [] => [[]]
  | c :: rest =>
    if c = sep then
      [] :: splitOnChar sep rest
    else
      match splitOnChar sep rest with
      | [] => [[c]]
      | h :: t => (c :: h) :: t

/-- Embedding of `validate_email` (models/user.rs lines 166-189). -/
def validate_email (email : String) : Except String Unit :=
  if email.toList.isEmpty then
    .error "Email cannot be empty"
  else if !(email.toList.contains '@') then
    .error "Email must contain @ symbol"
  else
    match splitOnChar '@' email.toList with
    | [lpart, dpart] =>
      if lpart.isEmpty || dpart.isEmpty then
        .error "Email must have non-empty local and domain parts"
      else if !(dpart.contains '.') then
        .error "Email domain must contain at least one dot"
      else
        .ok ()
    | _ => .error "Email must have exactly one @ symbol"

/-! Credential Engine, abstracted from the argon2 calls in
`src/backend/src/models/user.rs`. -/

inductive StoredHash where
  | hashed (pwd : String)
  | corrupt
deriving DecidableEq, Repr

inductive PasswordHashError where
  | CryptoFormat
deriving DecidableEq, Repr

/-- Display text stood in for the argon2 error rendering in the
`format!("Authentication error: ...")` call sites. -/
def passwordHashErrorMessage : PasswordHashError → String
  | .CryptoFormat => "invalid password hash"

/-- Abstract model of `hash_password`: records which password was hashed. -/
def hash_password (pwd : String) : StoredHash :=
  .hashed pwd

/-- Abstract model of `verify_password` (models/user.rs lines 118-127):
`Ok(bool)` on a well-formed stored hash, an error on a corrupt one. -/
def verify_password_hash (h : StoredHash) (pwd : String) :
    Except PasswordHashError Bool :=
  match h with
  | .hashed stored => .ok (stored == pwd)
  | .corrupt => .error .CryptoFormat

/-! User Lifecycle, from `src/backend/src/models/user.rs`. -/

structure User where
  id : Nat
  email : String
  name : String
  password_hash : StoredHash
  created_at : Nat
  updated_at : Nat
  is_admin : Bool
deriving DecidableEq, Repr

structure PublicUser where
  id : Nat
  email : String
  name : String
  created_at : Nat
  updated_at : Nat
  is_admin : Bool
deriving DecidableEq, Repr

/-- Embedding of `User::new`; `freshId` is the drawn `Uuid::new_v4()` and
`now` the `Utc::now()` timestamp. -/
def User.new (freshId now : Nat) (email name password : String) :
    Except String User :=
  match validate_email email with
  | .error e => .error e
  | .ok _ =>
    match validate_password_strength password with
    | .error e => .error e
    | .ok _ =>
      .ok { id := freshId, email := email, name := name,
            password_hash := hash_password password,
            created_at := now, updated_at := now, is_admin := false }

/-- Embedding of `User::update` (models/user.rs lines 48-56). -/
def User.update (u : User) (now : Nat) (email? name? : Option String) : User :=
  let u1 := match email? with
    | some e => { u with email := e }
    | none => u
  let u2 := match name? with
    | some n => { u1 with name := n }
    | none => u1
  { u2 with updated_at := now }

/-- Embedding of `User::update_password` (models/user.rs lines 58-69). -/
def User.update_password (u : User) (now : Nat) (new_password : String) :
    Except String User :=
  match validate_password_strength new_password with
  | .error e => .error e
  | .ok _ =>
    .ok { u with password_hash := hash_password new_password, updated_at := now }

/-- Embedding of `User::verify_password`. -/
def User.verify_password (u : User) (password : String) :
    Except PasswordHashError Bool :=
  verify_password_hash u.password_hash password

/-- Embedding of `User::set_admin`. -/
def User.set_admin (u : User) (now : Nat) (is_admin : Bool) : User :=
  { u with is_admin := is_admin, updated_at := now }

/-- Embedding of `User::to_public`. -/
def User.to_public (u : User) : PublicUser :=
  { id := u.id, email := u.email, name := u.name,
    created_at := u.created_at, updated_at := u.updated_at,
    is_admin := u.is_admin }

/-! Token Issuer/Verifier, from `src/src/auth.rs`. -/

structure Claims where
  sub : Nat
  email : String
  name : String
  admin : Bool
  exp : Nat
  iat : Nat
deriving DecidableEq, Repr

inductive TokenPayload where
  | wellFormed (c : Claims)
  | malformed
deriving DecidableEq, Repr

/-- Ideal-MAC model of an encoded JWT: the payload together with the secret
whose HMAC it carries. Verification succeeds only against the same secret. -/
structure JwtToken where
  payload : TokenPayload
  signedWith : String
deriving DecidableEq, Repr

structure TokenResponse where
  token : JwtToken
  expires_in : Nat
  token_type : String
deriving DecidableEq, Repr

/-- The process-wide secret of `get_jwt_secret` (its development default). -/
def jwt_secret : String := "your-secret-key-change-this-in-production"

/-- Default `leeway` of the `jsonwebtoken` crate's `Validation::new`, in
seconds, applied to the `exp` check by `validate_token`. -/
def JWT_DEFAULT_LEEWAY : Nat := 60

inductive JwtError where
  | InvalidSignature
  | InvalidToken
  | ExpiredSignature
deriving DecidableEq, Repr

/-- Model of `jsonwebtoken::encode` under the ideal-MAC token model. -/
def jwt_encode (secret : String) (c : Claims) : JwtToken :=
  { payload := .wellFormed c, signedWith := secret }

/-- Model of `jsonwebtoken::decode`: signature check, then payload
deserialization, then the `exp` validation `exp < now - leeway`. -/
def jwt_decode (secret : String) (leeway now : Nat) (t : JwtToken) :
    Except JwtError Claims :=
  if t.signedWith ≠ secret then .error .InvalidSignature
  else
    match t.payload with
    | .malformed => .error .InvalidToken
    | .wellFormed c =>
      if c.exp < now - leeway then .error .ExpiredSignature
      else .ok c

/-- Embedding of `generate_token` (src/auth.rs lines 38-72). -/
def generate_token (now user_id : Nat) (email name : String) (is_admin : Bool)
    (expires_in_hours : Option Nat) : TokenResponse :=
  let expires_in := expires_in_hours.getD 24
  let exp := now + expires_in * 3600
  let claims : Claims :=
    { sub := user_id, email := email, name := name, admin := is_admin,
      exp := exp, iat := now }
  { token := jwt_encode jwt_secret claims,
    expires_in := expires_in * 3600, token_type := "Bearer" }

/-- Embedding of `validate_token` (src/auth.rs lines 75-86). -/
def validate_token (now : Nat) (t : JwtToken) : Except JwtError Claims :=
  jwt_decode jwt_secret JWT_DEFAULT_LEEWAY now t

/-! Identity Directory and Reset Token Ledger: `UserStore` and its request
and response types, from `src/backend/src/endpoints/auth.rs`. Every method
that mutates `&mut self` is modelled as returning the result paired with the
successor store; a method on `&self` returns only the result. -/

structure RegisterRequest where
  email : String
  name : String
  password : String
deriving DecidableEq, Repr

structure CreateAdminRequest where
  email : String
  name : String
  password : String
deriving DecidableEq, Repr

structure LoginRequest where
  email : String
  password : String
deriving DecidableEq, Repr

structure UpdatePasswordRequest where
  current_password : String
  new_password : String
deriving DecidableEq, Repr

structure UpdateProfileRequest where
  name : Option String
  email : Option String
deriving DecidableEq, Repr

structure UpdateRoleRequest where
  is_admin : Bool
deriving DecidableEq, Repr

structure ForgotPasswordRequest where
  email : String
deriving DecidableEq, Repr

structure ResetPasswordRequest where
  token : String
  new_password : String
deriving DecidableEq, Repr

structure AuthResponse where
  user : PublicUser
  token : TokenResponse
  message : String
deriving DecidableEq, Repr

structure UserResponse where
  user : PublicUser
  message : String
deriving DecidableEq, Repr

structure MessageResponse where
  message : String
deriving DecidableEq, Repr

structure UserStore where
  users : List (String × User)
  password_reset_tokens : List (String × (String × Nat))
deriving DecidableEq, Repr

def UserStore.empty : UserStore :=
  { users := [], password_reset_tokens := [] }

/-- First entry whose user carries the given id, the semantics of the
`self.users.iter().find(|(_, user)| &user.id == user_id)` scans. -/
def findEntryById (m : List (String × User)) (uid : Nat) :
    Option (String × User) :=
  m.find? (fun kv => kv.2.id == uid)

/-- Embedding of `UserStore::register` (endpoints/auth.rs lines 164-194). -/
def UserStore.register (s : UserStore) (freshId now : Nat)
    (request : RegisterRequest) : Except String AuthResponse × UserStore :=
  if containsKeyAL s.users request.email then
    (.error "User with this email already exists", s)
  else
    match User.new freshId now request.email request.name request.password with
    | .error e => (.error e, s)
    | .ok user =>
      let public_user := user.to_public
      let token := generate_token now user.id user.email user.name user.is_admin none
      (.ok { user := public_user, token := token,
             message := "User registered successfully" },
       { s with users := insertAL s.users request.email user })

/-- Embedding of `UserStore::create_admin` (endpoints/auth.rs lines 197-219). -/
def UserStore.create_admin (s : UserStore) (freshId now : Nat)
    (request : CreateAdminRequest) : Except String UserResponse × UserStore :=
  if containsKeyAL s.users request.email then
    (.error "User with this email already exists", s)
  else
    match User.new freshId now request.email request.name request.password with
    | .error e => (.error e, s)
    | .ok user0 =>
      let user := user0.set_admin now true
      (.ok { user := user.to_public,
             message := "Admin user created successfully" },
       { s with users := insertAL s.users request.email user })

/-- Embedding of `UserStore::login` (endpoints/auth.rs lines 222-253). -/
def UserStore.login (s : UserStore) (now : Nat) (request : LoginRequest) :
    Except String AuthResponse :=
  match lookupAL s.users request.email with
  | none => .error "Invalid email or password"
  | some user =>
    match user.verify_password request.password with
    | .error e => .error ("Authentication error: " ++ passwordHashErrorMessage e)
    | .ok is_valid =>
      if !is_valid then .error "Invalid email or password"
      else
        .ok { user := user.to_public,
              token := generate_token now user.id user.email user.name
                user.is_admin none,
              message := "Login successful" }

/-- Embedding of `UserStore::update_user` (endpoints/auth.rs lines 266-321). -/
def UserStore.update_user (s : UserStore) (now user_id : Nat)
    (request : UpdateProfileRequest) : Except String UserResponse × UserStore :=
  let conflict : Option String :=
    match request.email with
    | some new_email =>
      match findEntryById s.users user_id with
      | none => some "User not found"
      | some (current_email, _) =>
        if new_email != current_email && containsKeyAL s.users new_email then
          some "Email already in use"
        else
          none
    | none => none
  match conflict with
  | some e => (.error e, s)
  | none =>
    match findEntryById s.users user_id with
    | none => (.error "User not found", s)
    | some (old_email, user0) =>
      let user := user0.update now request.email request.name
      let users1 := insertAL s.users old_email user
      match request.email with
      | some new_email =>
        if new_email != old_email then
          (.ok { user := user.to_public,
                 message := "Profile updated successfully" },
           { s with users := insertAL (removeAL users1 old_email) new_email user })
        else
          (.ok { user := user.to_public,
                 message := "Profile updated successfully" },
           { s with users := users1 })
      | none =>
        (.ok { user := user.to_public,
               message := "Profile updated successfully" },
         { s with users := users1 })

/-- Embedding of `UserStore::update_password` (endpoints/auth.rs lines 324-352). -/
def UserStore.update_password (s : UserStore) (now user_id : Nat)
    (request : UpdatePasswordRequest) : Except String MessageResponse × UserStore :=
  match findEntryById s.users user_id with
  | none => (.error "User not found", s)
  | some (email, user) =>
    match user.verify_password request.current_password with
    | .error e =>
      (.error ("Authentication error: " ++ passwordHashErrorMessage e), s)
    | .ok is_valid =>
      if !is_valid then (.error "Current password is incorrect", s)
      else
        match user.update_password now request.new_password with
        | .error e => (.error e, s)
        | .ok user1 =>
          (.ok { message := "Password updated successfully" },
           { s with users := insertAL s.users email user1 })

/-- Embedding of `UserStore::delete_user` (endpoints/auth.rs lines 355-369). -/
def UserStore.delete_user (s : UserStore) (user_id : Nat) :
    Except String MessageResponse × UserStore :=
  match findEntryById s.users user_id with
  | none => (.error "User not found", s)
  | some (email, _) =>
    (.ok { message := "User deleted successfully" },
     { s with users := removeAL s.users email })

/-- Embedding of `UserStore::update_user_role` (endpoints/auth.rs lines 372-390). -/
def UserStore.update_user_role (s : UserStore) (now user_id : Nat)
    (request : UpdateRoleRequest) : Except String UserResponse × UserStore :=
  match findEntryById s.users user_id with
  | none => (.error "User not found", s)
  | some (email, user) =>
    let user1 := user.set_admin now request.is_admin
    (.ok { user := user1.to_public, message := "Role updated successfully" },
     { s with users := insertAL s.users email user1 })

/-- Embedding of `UserStore::generate_password_reset_token`
(endpoints/auth.rs lines 403-417); `freshToken` is the drawn
`Uuid::new_v4().to_string()`. -/
def UserStore.generate_password_reset_token (s : UserStore)
    (freshToken : String) (now : Nat) (email : String) :
    Except String String × UserStore :=
  if !(containsKeyAL s.users email) then
    (.error "User not found", s)
  else
    let expiry := now + 3600
    (.ok freshToken,
     { s with password_reset_tokens :=
         insertAL s.password_reset_tokens freshToken (email, expiry) })

/-- Embedding of `UserStore::reset_password` (endpoints/auth.rs lines 420-452). -/
def UserStore.reset_password (s : UserStore) (now : Nat)
    (request : ResetPasswordRequest) : Except String MessageResponse × UserStore :=
  match lookupAL s.password_reset_tokens request.token with
  | none => (.error "Invalid or expired reset token", s)
  | some (email, expiry) =>
    if expiry < now then
      (.error "Reset token has expired",
       { s with password_reset_tokens :=
           removeAL s.password_reset_tokens request.token })
    else
      match lookupAL s.users email with
      | none => (.error "User not found", s)
      | some user =>
        match user.update_password now request.new_password with
        | .error e => (.error e, s)
        | .ok user1 =>
          (.ok { message := "Password reset successfully" },
           { s with users := insertAL s.users email user1,
                    password_reset_tokens :=
                      removeAL s.password_reset_tokens request.token })

/-! The forgot-password HTTP endpoint (endpoints/auth.rs lines 697-717),
modelled down to its observable outcome: the reply sent to the caller
(status code and body) and the operator-facing `tracing::info!` log. -/

structure EndpointReply where
  status : Nat
  body : String
deriving DecidableEq, Repr

structure ForgotPasswordOutcome where
  reply : EndpointReply
  store : UserStore
  operator_log : List String
deriving DecidableEq, Repr

/-- Embedding of `forgot_password_endpoint`. -/
def forgot_password_endpoint (s : UserStore) (freshToken : String) (now : Nat)
    (request : ForgotPasswordRequest) : ForgotPasswordOutcome :=
  match s.generate_password_reset_token freshToken now request.email with
  | (.ok token, s1) =>
    { reply := { status := 200,
                 body := "Password reset instructions have been sent to your email" },
      store := s1,
      operator_log :=
        ["Password reset token for " ++ request.email ++ ": " ++ token] }
  | (.error e, s1) =>
    { reply := { status := 404, body := e }, store := s1, operator_log := [] }

/-! The public operations of `UserStore` as a step relation, for claims about
reachable states. Each constructor carries the side-effect inputs (fresh
identifiers, fresh token strings, current time) drawn by that call. -/

inductive StoreOp where
  | register (freshId now : Nat) (request : RegisterRequest)
  | create_admin (freshId now : Nat) (request : CreateAdminRequest)
  | login (now : Nat) (request : LoginRequest)
  | update_user (now user_id : Nat) (request : UpdateProfileRequest)
  | update_password (now user_id : Nat) (request : UpdatePasswordRequest)
  | delete_user (user_id : Nat)
  | update_user_role (now user_id : Nat) (request : UpdateRoleRequest)
  | generate_password_reset_token (freshToken : String) (now : Nat) (email : String)
  | reset_password (now : Nat) (request : ResetPasswordRequest)
deriving DecidableEq, Repr

/-- Successor store of one public operation. -/
def StoreOp.apply (s : UserStore) : StoreOp → UserStore
  | .register freshId now request => (s.register freshId now request).2
  | .create_admin freshId now request => (s.create_admin freshId now request).2
  | .login _ _ => s
  | .update_user now uid request => (s.update_user now uid request).2
  | .update_password now uid request => (s.update_password now uid request).2
  | .delete_user uid => (s.delete_user uid).2
  | .update_user_role now uid request => (s.update_user_role now uid request).2
  | .generate_password_reset_token tok now email =>
      (s.generate_password_reset_token tok now email).2
  | .reset_password now request => (s.reset_password now request).2

/-- Store reached by a sequence of public operations. -/
def applyOps (s : UserStore) (ops : List StoreOp) : UserStore :=
  ops.foldl StoreOp.apply s

/-- True exactly when the operation is a reset-token issuance drawing the
token string `t`. -/
def StoreOp.issuesToken (t : String) : StoreOp → Bool
  | .generate_password_reset_token tok _ _ => tok == t
  | _ => false

/-- Structural store invariant: both maps have distinct keys, and every user
is stored under its own email. -/
def storeInv (s : UserStore) : Prop :=
  (keysAL s.users).Nodup ∧ (keysAL s.password_reset_tokens).Nodup ∧
    ∀ k u, (k, u) ∈ s.users → u.email = k

/-! Lemmas about the association-list map operations. -/

theorem lookupAL_insertAL_self {β : Type} (m : List (String × β)) (k : String)
    (v : β) : lookupAL (insertAL m k v) k = some v := by
  induction m with
  | nil => simp [insertAL, lookupAL]
  | cons hd tl ih =>
    obtain ⟨k1, v1⟩ := hd
    by_cases h : k1 = k
    · simp [insertAL, lookupAL, h]
    · simp [insertAL, lookupAL, h, ih]

theorem lookupAL_insertAL_ne {β : Type} (m : List (String × β)) {k k2 : String}
    (v : β) (h : k2 ≠ k) : lookupAL (insertAL m k v) k2 = lookupAL m k2 := by
  induction m with
  | nil => simp [insertAL, lookupAL, Ne.symm h]
  | cons hd tl ih =>
    obtain ⟨k1, v1⟩ := hd
    by_cases hk : k1 = k
    · subst hk
      simp [insertAL, lookupAL, Ne.symm h]
    · simp only [insertAL, if_neg hk]
      by_cases hk2 : k1 = k2
      · simp [lookupAL, hk2]
      · simp [lookupAL, hk2, ih]

theorem lookupAL_removeAL_ne {β : Type} (m : List (String × β)) {k k2 : String}
    (h : k2 ≠ k) : lookupAL (removeAL m k) k2 = lookupAL m k2 := by
  induction m with
  | nil => simp [removeAL]
  | cons hd tl ih =>
    obtain ⟨k1, v1⟩ := hd
    by_cases hk : k1 = k
    · subst hk
      simp [removeAL, lookupAL, Ne.symm h]
    · by_cases hk2 : k1 = k2
      · subst hk2
        simp [removeAL, lookupAL, hk]
      · simp [removeAL, lookupAL, hk, hk2, ih]

theorem removeAL_sublist {β : Type} (m : List (String × β)) (k : String) :
    List.Sublist (removeAL m k) m := by
  induction m with
  | nil => exact List.Sublist.refl _
  | cons hd tl ih =>
    obtain ⟨k1, v1⟩ := hd
    by_cases h : k1 = k
    · simp only [removeAL, if_pos h]
      exact (List.Sublist.refl tl).cons _
    · simp only [removeAL, if_neg h]
      exact ih.cons₂ _

theorem mem_removeAL {β : Type} {m : List (String × β)} {k : String}
    {e : String × β} (h : e ∈ removeAL m k) : e ∈ m :=
  (removeAL_sublist m k).subset h

theorem mem_insertAL {β : Type} {m : List (String × β)} {k : String} {v : β}
    {e : String × β} (h : e ∈ insertAL m k v) : e = (k, v) ∨ e ∈ m := by
  induction m with
  | nil =>
    simp only [insertAL, List.mem_singleton] at h
    exact Or.inl h
  | cons hd tl ih =>
    obtain ⟨k1, v1⟩ := hd
    by_cases hk : k1 = k
    · rw [insertAL, if_pos hk] at h
      rcases List.mem_cons.mp h with h | h
      · exact Or.inl h
      · exact Or.inr (List.mem_cons_of_mem _ h)
    · rw [insertAL, if_neg hk] at h
      rcases List.mem_cons.mp h with h | h
      · exact Or.inr (h ▸ List.mem_cons_self _ _)
      · rcases ih h with h1 | h1
        · exact Or.inl h1
        · exact Or.inr (List.mem_cons_of_mem _ h1)

theorem lookupAL_eq_none {β : Type} {m : List (String × β)} {k : String} :
    lookupAL m k = none ↔ k ∉ keysAL m := by
  induction m with
  | nil => simp [lookupAL, keysAL]
  | cons hd tl ih =>
    obtain ⟨k1, v1⟩ := hd
    by_cases h : k1 = k
    · subst h
      simp [lookupAL, keysAL]
    · simp [lookupAL, keysAL, h, Ne.symm h, ih]

theorem containsKeyAL_eq_false {β : Type} {m : List (String × β)} {k : String} :
    containsKeyAL m k = false ↔ lookupAL m k = none := by
  unfold containsKeyAL
  cases lookupAL m k <;> simp

theorem keysAL_insertAL_of_contains {β : Type} {m : List (String × β)}
    {k : String} (v : β) (h : containsKeyAL m k = true) :
    keysAL (insertAL m k v) = keysAL m := by
  induction m with
  | nil => simp [containsKeyAL, lookupAL] at h
  | cons hd tl ih =>
    obtain ⟨k1, v1⟩ := hd
    by_cases hk : k1 = k
    · subst hk
      simp [insertAL, keysAL]
    · simp only [containsKeyAL, lookupAL, if_neg hk] at h
      have h2 := ih h
      simp only [insertAL, if_neg hk, keysAL, List.map_cons]
      simp only [keysAL] at h2
      rw [h2]

theorem keysAL_insertAL_of_not_contains {β : Type} {m : List (String × β)}
    {k : String} (v : β) (h : containsKeyAL m k = false) :
    keysAL (insertAL m k v) = keysAL m ++ [k] := by
  induction m with
  | nil => simp [insertAL, keysAL]
  | cons hd tl ih =>
    obtain ⟨k1, v1⟩ := hd
    by_cases hk : k1 = k
    · subst hk
      simp [containsKeyAL, lookupAL] at h
    · simp only [containsKeyAL, lookupAL, if_neg hk] at h
      have h2 := ih h
      simp only [insertAL, if_neg hk, keysAL, List.map_cons]
      simp only [keysAL] at h2
      rw [h2]
      simp

theorem nodup_keysAL_insertAL {β : Type} {m : List (String × β)} {k : String}
    {v : β} (h : (keysAL m).Nodup) : (keysAL (insertAL m k v)).Nodup := by
  cases hc : containsKeyAL m k
  · rw [keysAL_insertAL_of_not_contains v hc]
    have hk : k ∉ keysAL m := lookupAL_eq_none.mp (containsKeyAL_eq_false.mp hc)
    simp [List.nodup_append, h, hk]
  · rw [keysAL_insertAL_of_contains v hc]
    exact h

theorem nodup_keysAL_removeAL {β : Type} {m : List (String × β)} {k : String}
    (h : (keysAL m).Nodup) : (keysAL (removeAL m k)).Nodup :=
  List.Nodup.sublist ((removeAL_sublist m k).map Prod.fst) h

theorem lookupAL_removeAL_self {β : Type} {m : List (String × β)} {k : String}
    (h : (keysAL m).Nodup) : lookupAL (removeAL m k) k = none := by
  induction m with
  | nil => simp [removeAL, lookupAL]
  | cons hd tl ih =>
    obtain ⟨k1, v1⟩ := hd
    simp only [keysAL, List.map_cons, List.nodup_cons] at h
    by_cases hk : k1 = k
    · subst hk
      simp only [removeAL, if_pos rfl]
      exact lookupAL_eq_none.mpr h.1
    · simp only [removeAL, if_neg hk, lookupAL, if_neg hk]
      exact ih h.2

theorem lookupAL_removeAL_of_none {β : Type} {m : List (String × β)}
    {k k2 : String} (h : lookupAL m k2 = none) :
    lookupAL (removeAL m k) k2 = none := by
  induction m with
  | nil => simpa [removeAL] using h
  | cons hd tl ih =>
    obtain ⟨k1, v1⟩ := hd
    by_cases hk : k1 = k2
    · subst hk
      simp [lookupAL] at h
    · simp only [lookupAL, if_neg hk] at h
      by_cases hk2 : k1 = k
      · simp only [removeAL, if_pos hk2]
        exact h
      · simp only [removeAL, if_neg hk2, lookupAL, if_neg hk]
        exact ih h

theorem lookupAL_mem {β : Type} {m : List (String × β)} {k : String} {v : β}
    (h : lookupAL m k = some v) : (k, v) ∈ m := by
  induction m with
  | nil => simp [lookupAL] at h
  | cons hd tl ih =>
    obtain ⟨k1, v1⟩ := hd
    by_cases hk : k1 = k
    · subst hk
      simp [lookupAL] at h
      subst h
      exact List.mem_cons_self _ _
    · simp only [lookupAL, if_neg hk] at h
      exact List.mem_cons_of_mem _ (ih h)

theorem mem_lookupAL {β : Type} {m : List (String × β)} {k : String} {v : β}
    (hnd : (keysAL m).Nodup) (h : (k, v) ∈ m) : lookupAL m k = some v := by
  induction m with
  | nil => simp at h
  | cons hd tl ih =>
    obtain ⟨k1, v1⟩ := hd
    simp only [keysAL, List.map_cons, List.nodup_cons] at hnd
    rcases List.mem_cons.mp h with h | h
    · injection h with h1 h2
      subst h1
      subst h2
      simp [lookupAL]
    · by_cases hk : k1 = k
      · subst hk
        have : k1 ∈ List.map Prod.fst tl := List.mem_map_of_mem Prod.fst h
        exact absurd this hnd.1
      · simp only [lookupAL, if_neg hk]
        exact ih hnd.2 h

theorem mem_containsKeyAL {β : Type} {m : List (String × β)} {k : String}
    {v : β} (h : (k, v) ∈ m) : containsKeyAL m k = true := by
  unfold containsKeyAL
  cases hl : lookupAL m k with
  | some w => rfl
  | none => exact absurd (List.mem_map_of_mem Prod.fst h) (lookupAL_eq_none.mp hl)

theorem removeAL_insertAL_self {β : Type} (m : List (String × β)) (k : String)
    (v : β) : removeAL (insertAL m k v) k = removeAL m k := by
  induction m with
  | nil => simp [insertAL, removeAL]
  | cons hd tl ih =>
    obtain ⟨k1, v1⟩ := hd
    by_cases h : k1 = k
    · subst h
      simp [insertAL, removeAL]
    · simp [insertAL, removeAL, h, ih]

theorem findEntryById_mem {m : List (String × User)} {uid : Nat} {k : String}
    {u : User} (h : findEntryById m uid = some (k, u)) :
    (k, u) ∈ m ∧ u.id = uid := by
  unfold findEntryById at h
  refine ⟨List.mem_of_find?_eq_some h, ?_⟩
  have hp := List.find?_some h
  simpa using hp

/-! Lemmas about the user lifecycle operations. -/

theorem User.new_fields {freshId now : Nat} {email name password : String}
    {u : User} (h : User.new freshId now email name password = .ok u) :
    u.email = email ∧ u.id = freshId ∧ u.name = name ∧
      u.password_hash = hash_password password ∧ u.created_at = now ∧
      u.updated_at = now ∧ u.is_admin = false := by
  unfold User.new at h
  cases hve : validate_email email <;> rw [hve] at h
  · simp at h
  · cases hvp : validate_password_strength password <;> rw [hvp] at h
    · simp at h
    · injection h with h
      subst h
      simp

theorem User.update_email_some (u : User) (now : Nat) (e : String)
    (name? : Option String) : (u.update now (some e) name?).email = e := by
  cases name? <;> simp [User.update]

theorem User.update_email_none (u : User) (now : Nat) (name? : Option String) :
    (u.update now none name?).email = u.email := by
  cases name? <;> simp [User.update]

theorem User.update_fields (u : User) (now : Nat) (email? name? : Option String) :
    (u.update now email? name?).id = u.id ∧
      (u.update now email? name?).password_hash = u.password_hash ∧
      (u.update now email? name?).created_at = u.created_at ∧
      (u.update now email? name?).is_admin = u.is_admin ∧
      (u.update now email? name?).email = email?.getD u.email ∧
      (u.update now email? name?).name = name?.getD u.name ∧
      (u.update now email? name?).updated_at = now := by
  cases email? <;> cases name? <;> simp [User.update]

theorem User.update_password_fields {u : User} {now : Nat} {p : String}
    {u1 : User} (h : u.update_password now p = .ok u1) :
    u1.email = u.email ∧ u1.id = u.id ∧ u1.name = u.name ∧
      u1.created_at = u.created_at ∧ u1.is_admin = u.is_admin := by
  unfold User.update_password at h
  cases hv : validate_password_strength p <;> rw [hv] at h
  · simp at h
  · injection h with h
    subst h
    simp

theorem User.set_admin_email (u : User) (now : Nat) (b : Bool) :
    (u.set_admin now b).email = u.email := rfl

/-! Preservation of the structural store invariant by every public
operation. -/

theorem storeInv_insert_user (s : UserStore) (k : String) (u : User)
    (hu : u.email = k) (h : storeInv s) :
    storeInv { s with users := insertAL s.users k u } := by
  obtain ⟨h1, h2, h3⟩ := h
  refine ⟨nodup_keysAL_insertAL h1, h2, ?_⟩
  intro k1 u1 hmem
  rcases mem_insertAL hmem with he | he
  · injection he with e1 e2
    subst e1
    subst e2
    exact hu
  · exact h3 k1 u1 he

theorem storeInv_remove_user (s : UserStore) (k : String) (h : storeInv s) :
    storeInv { s with users := removeAL s.users k } := by
  obtain ⟨h1, h2, h3⟩ := h
  exact ⟨nodup_keysAL_removeAL h1, h2, fun k1 u1 hm => h3 k1 u1 (mem_removeAL hm)⟩

theorem storeInv_insert_token (s : UserStore) (t : String) (v : String × Nat)
    (h : storeInv s) :
    storeInv { s with
      password_reset_tokens := insertAL s.password_reset_tokens t v } :=
  ⟨h.1, nodup_keysAL_insertAL h.2.1, h.2.2⟩

theorem storeInv_remove_token (s : UserStore) (t : String) (h : storeInv s) :
    storeInv { s with
      password_reset_tokens := removeAL s.password_reset_tokens t } :=
  ⟨h.1, nodup_keysAL_removeAL h.2.1, h.2.2⟩

theorem storeInv_register (s : UserStore) (freshId now : Nat)
    (request : RegisterRequest) (h : storeInv s) :
    storeInv (s.register freshId now request).2 := by
  unfold UserStore.register
  cases hc : containsKeyAL s.users request.email with
  | true => simpa using h
  | false =>
    cases hn : User.new freshId now request.email request.name request.password with
    | error e => simpa using h
    | ok u =>
      have hu : u.email = request.email := (User.new_fields hn).1
      simpa using storeInv_insert_user s request.email u hu h

theorem storeInv_create_admin (s : UserStore) (freshId now : Nat)
    (request : CreateAdminRequest) (h : storeInv s) :
    storeInv (s.create_admin freshId now request).2 := by
  unfold UserStore.create_admin
  cases hc : containsKeyAL s.users request.email with
  | true => simpa using h
  | false =>
    cases hn : User.new freshId now request.email request.name request.password with
    | error e => simpa using h
    | ok u0 =>
      have hu : (u0.set_admin now true).email = request.email :=
        (User.set_admin_email u0 now true).trans (User.new_fields hn).1
      simpa using storeInv_insert_user s request.email (u0.set_admin now true) hu h

theorem storeInv_update_user (s : UserStore) (now uid : Nat)
    (request : UpdateProfileRequest) (h : storeInv s) :
    storeInv (s.update_user now uid request).2 := by
  cases hre : request.email with
  | none =>
    cases hf : findEntryById s.users uid with
    | none =>
      simp only [UserStore.update_user, hre, hf]
      exact h
    | some ku =>
      obtain ⟨old_email, user0⟩ := ku
      have hemail : user0.email = old_email := h.2.2 _ _ (findEntryById_mem hf).1
      have hu : (user0.update now none request.name).email = old_email :=
        (User.update_email_none user0 now request.name).trans hemail
      simp only [UserStore.update_user, hre, hf]
      exact storeInv_insert_user s old_email _ hu h
  | some new_email =>
    cases hf : findEntryById s.users uid with
    | none =>
      simp only [UserStore.update_user, hre, hf]
      exact h
    | some ku =>
      obtain ⟨old_email, user0⟩ := ku
      have hu : (user0.update now (some new_email) request.name).email = new_email :=
        User.update_email_some user0 now new_email request.name
      by_cases hne : new_email = old_email
      · subst hne
        simp [UserStore.update_user, hre, hf]
        exact storeInv_insert_user s new_email _ hu h
      · have hbne : (new_email != old_email) = true := bne_iff_ne.mpr hne
        cases hcont : containsKeyAL s.users new_email with
        | true =>
          simp [UserStore.update_user, hre, hf, hbne, hcont]
          exact h
        | false =>
          simp [UserStore.update_user, hre, hf, hbne, hcont,
            removeAL_insertAL_self]
          exact storeInv_insert_user { s with users := removeAL s.users old_email }
            new_email _ hu (storeInv_remove_user s old_email h)

theorem storeInv_update_password (s : UserStore) (now uid : Nat)
    (request : UpdatePasswordRequest) (h : storeInv s) :
    storeInv (s.update_password now uid request).2 := by
  cases hf : findEntryById s.users uid with
  | none =>
    simp only [UserStore.update_password, hf]
    exact h
  | some ku =>
    obtain ⟨email, user⟩ := ku
    have hemail : user.email = email := h.2.2 _ _ (findEntryById_mem hf).1
    cases hv : user.verify_password request.current_password with
    | error e =>
      simp only [UserStore.update_password, hf, hv]
      exact h
    | ok is_valid =>
      cases is_valid with
      | false =>
        simp [UserStore.update_password, hf, hv]
        exact h
      | true =>
        cases hup : user.update_password now request.new_password with
        | error e =>
          simp [UserStore.update_password, hf, hv, hup]
          exact h
        | ok user1 =>
          have hu : user1.email = email :=
            (User.update_password_fields hup).1.trans hemail
          simp [UserStore.update_password, hf, hv, hup]
          exact storeInv_insert_user s email user1 hu h

theorem storeInv_delete_user (s : UserStore) (uid : Nat) (h : storeInv s) :
    storeInv (s.delete_user uid).2 := by
  cases hf : findEntryById s.users uid with
  | none =>
    simp only [UserStore.delete_user, hf]
    exact h
  | some ku =>
    obtain ⟨email, user⟩ := ku
    simp only [UserStore.delete_user, hf]
    exact storeInv_remove_user s email h

theorem storeInv_update_user_role (s : UserStore) (now uid : Nat)
    (request : UpdateRoleRequest) (h : storeInv s) :
    storeInv (s.update_user_role now uid request).2 := by
  cases hf : findEntryById s.users uid with
  | none =>
    simp only [UserStore.update_user_role, hf]
    exact h
  | some ku =>
    obtain ⟨email, user⟩ := ku
    have hemail : user.email = email := h.2.2 _ _ (findEntryById_mem hf).1
    have hu : (user.set_admin now request.is_admin).email = email :=
      (User.set_admin_email user now request.is_admin).trans hemail
    simp only [UserStore.update_user_role, hf]
    exact storeInv_insert_user s email _ hu h

theorem storeInv_generate_token (s : UserStore) (freshToken : String)
    (now : Nat) (email : String) (h : storeInv s) :
    storeInv (s.generate_password_reset_token freshToken now email).2 := by
  cases hc : containsKeyAL s.users email with
  | false =>
    simp [UserStore.generate_password_reset_token, hc]
    exact h
  | true =>
    simp [UserStore.generate_password_reset_token, hc]
    exact storeInv_insert_token s freshToken (email, now + 3600) h

theorem storeInv_reset_password (s : UserStore) (now : Nat)
    (request : ResetPasswordRequest) (h : storeInv s) :
    storeInv (s.reset_password now request).2 := by
  cases hl : lookupAL s.password_reset_tokens request.token with
  | none =>
    simp only [UserStore.reset_password, hl]
    exact h
  | some ev =>
    obtain ⟨email, expiry⟩ := ev
    by_cases hex : expiry < now
    · simp [UserStore.reset_password, hl, hex]
      exact storeInv_remove_token s request.token h
    · cases hu : lookupAL s.users email with
      | none =>
        simp [UserStore.reset_password, hl, hex, hu]
        exact h
      | some user =>
        have hemail : user.email = email := h.2.2 _ _ (lookupAL_mem hu)
        cases hup : user.update_password now request.new_password with
        | error e =>
          simp [UserStore.reset_password, hl, hex, hu, hup]
          exact h
        | ok user1 =>
          have hu1 : user1.email = email :=
            (User.update_password_fields hup).1.trans hemail
          simp [UserStore.reset_password, hl, hex, hu, hup]
          exact storeInv_insert_user { s with
              password_reset_tokens := removeAL s.password_reset_tokens request.token }
            email user1 hu1 (storeInv_remove_token s request.token h)

theorem storeInv_apply (s : UserStore) (op : StoreOp) (h : storeInv s) :
    storeInv (op.apply s) := by
  cases op with
  | register freshId now request => exact storeInv_register s freshId now request h
  | create_admin freshId now request =>
    exact storeInv_create_admin s freshId now request h
  | login now request => exact h
  | update_user now uid request => exact storeInv_update_user s now uid request h
  | update_password now uid request =>
    exact storeInv_update_password s now uid request h
  | delete_user uid => exact storeInv_delete_user s uid h
  | update_user_role now uid request =>
    exact storeInv_update_user_role s now uid request h
  | generate_password_reset_token tok now email =>
    exact storeInv_generate_token s tok now email h
  | reset_password now request => exact storeInv_reset_password s now request h

theorem storeInv_empty : storeInv UserStore.empty := by
  refine ⟨List.nodup_nil, List.nodup_nil, ?_⟩
  intro k u h
  simp [UserStore.empty] at h

theorem storeInv_applyOps (s : UserStore) (ops : List StoreOp)
    (h : storeInv s) : storeInv (applyOps s ops) := by
  induction ops generalizing s with
  | nil => exact h
  | cons op rest ih => exact ih _ (storeInv_apply s op h)

/-! Claim C9. -/

/-- Reason of the first violated clause of the password policy in the spec's
order: the two length clauses first, then the uppercase, lowercase, digit and
punctuation clauses. -/
def passwordViolationMessage (p : String) : Option String :=
  if utf8Len p < 8 then
    some "Password must be at least 8 characters long"
  else if 128 < utf8Len p then
    some "Password must be no more than 128 characters long"
  else if ¬∃ c ∈ p.toList, c.isUpper = true then
    some "Password must contain at least one uppercase letter"
  else if ¬∃ c ∈ p.toList, c.isLower = true then
    some "Password must contain at least one lowercase letter"
  else if ¬∃ c ∈ p.toList, c.isDigit = true then
    some "Password must contain at least one digit"
  else if ¬∃ c ∈ p.toList, c ∈ SPECIAL_CHARS.toList then
    some "Password must contain at least one special character"
  else
    none

/-- Claim C9: `validate_password_strength` accepts a password iff its UTF-8
byte length lies in [8, 128] and it contains at least one uppercase letter,
one lowercase letter, one digit and one character of the fixed punctuation
set; on rejection the reported reason is that of the first violated clause,
with the two length clauses checked before any character-class clause
(`passwordViolationMessage` states the spec's clause order). Character
classifiers are modelled on the ASCII range. -/
theorem claim_C9_password_policy (p : String) :
    (validate_password_strength p = .ok () ↔
      8 ≤ utf8Len p ∧ utf8Len p ≤ 128 ∧
        (∃ c ∈ p.toList, c.isUpper = true) ∧
        (∃ c ∈ p.toList, c.isLower = true) ∧
        (∃ c ∈ p.toList, c.isDigit = true) ∧
        (∃ c ∈ p.toList, c ∈ SPECIAL_CHARS.toList)) ∧
    (∀ e, validate_password_strength p = .error e →
      passwordViolationMessage p = some e) := by
  constructor
  · unfold validate_password_strength
    split_ifs with h1 h2 <;>
      simp_all [List.any_eq_true, List.elem_iff]
    split_ifs with h3 h4 h5 h6 <;> simp_all
  · intro e h
    unfold validate_password_strength at h
    unfold passwordViolationMessage
    simp only [List.any_eq_true, List.elem_iff, Bool.not_eq_true,
      List.any_eq_false, gt_iff_lt] at h ⊢
    split_ifs at h ⊢ <;> simp_all <;> aesop

/-- Witness for claim C9: the hypothesis-bearing rejection clause evaluated
on a concrete rejected password whose first violated clause is the digit
clause. -/
theorem claim_C9_password_policy_witness :
    validate_password_strength "NoDigitsPass!" =
        .error "Password must contain at least one digit" ∧
      passwordViolationMessage "NoDigitsPass!" =
        some "Password must contain at least one digit" :=
  ⟨by decide,
   (claim_C9_password_policy "NoDigitsPass!").2
     "Password must contain at least one digit" (by decide)⟩

/-! Claim C3. -/

/-- Concrete claims payload used in the claim C3 counterexample. -/
def c3Claims : Claims :=
  { sub := 1, email := "a@x.com", name := "Alice", admin := false,
    exp := 1000, iat := 900 }

/-- Claim C3, counterexample: a well-formed token signed with the process
secret and carrying expiry 1000 is still accepted by `validate_token` at
now = 1030, although now ≥ expiry, because the `jsonwebtoken` crate's
`Validation::new` used by `validate_token` grants its default 60 seconds of
clock-skew leeway to the `exp` check. -/
theorem claim_C3_counterexample :
    validate_token 1030
        { payload := .wellFormed c3Claims, signedWith := jwt_secret }
      = .ok c3Claims ∧ c3Claims.exp ≤ 1030 := by
  constructor
  · rfl
  · decide

/-- Claim C3, amended: `validate_token` succeeds and returns the embedded
claims iff the token's signature matches the process-wide secret, the payload
is well-formed, and `now ≤ expiry + 60`: the default validation of the
`jsonwebtoken` crate grants 60 seconds of clock-skew leeway past the embedded
expiry instead of failing whenever now ≥ expiry. -/
theorem claim_C3_amended (now : Nat) (t : JwtToken) (c : Claims) :
    validate_token now t = .ok c ↔
      t.signedWith = jwt_secret ∧ t.payload = .wellFormed c ∧
        now ≤ c.exp + JWT_DEFAULT_LEEWAY := by
  unfold validate_token jwt_decode JWT_DEFAULT_LEEWAY
  by_cases hs : t.signedWith = jwt_secret
  · cases hp : t.payload with
    | malformed => simp [hs, hp]
    | wellFormed c1 =>
      by_cases he : c1.exp < now - 60
      · simp [hs, hp, he]
        rintro rfl
        omega
      · simp [hs, hp, he]
        rintro rfl
        omega
  · simp [hs]

/-! Claim C4. -/

/-- Claim C4: `UserStore::login` yields the identical failure — the same
error kind (a declined operation carrying a message string) with the same
message text "Invalid email or password" — when no user exists under the
given email and when the user exists but the password does not verify, so a
caller cannot distinguish missing-user from wrong-password. -/
theorem claim_C4_login_uniform_failure (s : UserStore) (now : Nat)
    (request : LoginRequest) :
    (lookupAL s.users request.email = none →
      s.login now request = .error "Invalid email or password") ∧
    (∀ u, lookupAL s.users request.email = some u →
      u.verify_password request.password = .ok false →
      s.login now request = .error "Invalid email or password") := by
  constructor
  · intro h
    simp [UserStore.login, h]
  · intro u h hv
    simp [UserStore.login, h, hv]

/-- Concrete user shared by several witnesses. -/
def aliceUser : User :=
  { id := 1, email := "a@x.com", name := "Alice",
    password_hash := .hashed "Secur3!pass", created_at := 10,
    updated_at := 10, is_admin := false }

/-- The user store holding only `aliceUser`, shared by several witnesses. -/
def aliceStore : UserStore :=
  { users := [("a@x.com", aliceUser)], password_reset_tokens := [] }

/-- Witness for claim C4: both failure paths evaluated on a concrete store
holding one user, with an unknown email and with a wrong password. -/
theorem claim_C4_login_uniform_failure_witness :
    aliceStore.login 50 { email := "b@x.com", password := "Secur3!pass" }
      = .error "Invalid email or password" ∧
    aliceStore.login 50 { email := "a@x.com", password := "WrongPass1!" }
      = .error "Invalid email or password" :=
  ⟨(claim_C4_login_uniform_failure aliceStore 50 _).1 (by decide),
   (claim_C4_login_uniform_failure aliceStore 50 _).2 aliceUser (by decide) (by decide)⟩

/-! Claim C6. -/

/-- Registration request shared by several witnesses; registering it with
fresh id 1 at time 10 produces exactly `aliceUser`. -/
def aliceRegister : RegisterRequest :=
  { email := "a@x.com", name := "Alice", password := "Secur3!pass" }

/-- Claim C6: a registration whose email already exists fails with the
conflict error and leaves the store untouched (never a silent overwrite); a
successful registration requires the email to have been absent and inserts
exactly one new user under that email, leaving every other key unchanged;
and over every sequence of register calls from the empty store no two stored
users ever share an email. -/
theorem claim_C6_register_email_uniqueness (s : UserStore) (freshId now : Nat)
    (request : RegisterRequest) :
    (containsKeyAL s.users request.email = true →
      s.register freshId now request =
        (.error "User with this email already exists", s)) ∧
    (∀ resp s1, s.register freshId now request = (.ok resp, s1) →
      containsKeyAL s.users request.email = false ∧
      ∃ u, u.email = request.email ∧
        s1.users = insertAL s.users request.email u ∧
        lookupAL s1.users request.email = some u ∧
        ∀ k, k ≠ request.email → lookupAL s1.users k = lookupAL s.users k) ∧
    (∀ ops : List StoreOp,
      (∀ op ∈ ops, ∃ i n r, op = .register i n r) →
      ((applyOps UserStore.empty ops).users.map (fun kv => kv.2.email)).Nodup) := by
  refine ⟨?_, ?_, ?_⟩
  · intro h
    simp [UserStore.register, h]
  · intro resp s1 h
    cases hc : containsKeyAL s.users request.email with
    | true => simp [UserStore.register, hc] at h
    | false =>
      cases hn : User.new freshId now request.email request.name request.password with
      | error e => simp [UserStore.register, hc, hn] at h
      | ok u =>
        simp [UserStore.register, hc, hn] at h
        obtain ⟨h1, h2⟩ := h
        refine ⟨rfl, u, (User.new_fields hn).1, ?_, ?_, ?_⟩
        · rw [← h2]
        · rw [← h2]
          exact lookupAL_insertAL_self s.users request.email u
        · intro k hk
          rw [← h2]
          exact lookupAL_insertAL_ne s.users u hk
  · intro ops _
    have hinv := storeInv_applyOps UserStore.empty ops storeInv_empty
    have hmap : (applyOps UserStore.empty ops).users.map (fun kv => kv.2.email)
        = keysAL (applyOps UserStore.empty ops).users := by
      apply List.map_congr_left
      intro e he
      obtain ⟨k, u⟩ := e
      exact hinv.2.2 k u he
    rw [hmap]
    exact hinv.1

/-- Witness for claim C6: the conflict clause on a store already holding the
email, the success clause on the empty store, and the uniqueness clause on a
one-registration sequence, all at concrete inputs. -/
theorem claim_C6_register_email_uniqueness_witness :
    aliceStore.register 2 50 aliceRegister
        = (.error "User with this email already exists", aliceStore) ∧
    (∃ u, u.email = "a@x.com" ∧ lookupAL aliceStore.users "a@x.com" = some u) ∧
    ((applyOps UserStore.empty [.register 1 10 aliceRegister]).users.map
        (fun kv => kv.2.email)).Nodup := by
  refine ⟨(claim_C6_register_email_uniqueness aliceStore 2 50 aliceRegister).1
      (by decide), ?_, ?_⟩
  · obtain ⟨-, u, hu1, -, hu3, -⟩ :=
      (claim_C6_register_email_uniqueness UserStore.empty 1 10 aliceRegister).2.1
        { user := aliceUser.to_public,
          token := generate_token 10 1 "a@x.com" "Alice" false none,
          message := "User registered successfully" }
        aliceStore (by decide)
    exact ⟨u, hu1, hu3⟩
  · exact (claim_C6_register_email_uniqueness UserStore.empty 1 10 aliceRegister).2.2
      [.register 1 10 aliceRegister]
      (by
        intro op hop
        rw [List.mem_singleton] at hop
        exact ⟨1, 10, aliceRegister, hop⟩)

/-! Claim C10. -/

/-- Claim C10: in every store reachable from the empty store by the public
operations, every stored user's email field equals the map key under which
it is stored, and looking that user up by its own email field succeeds and
returns it. -/
theorem claim_C10_email_key_coherence (ops : List StoreOp) (k : String)
    (u : User) (h : (k, u) ∈ (applyOps UserStore.empty ops).users) :
    u.email = k ∧
      lookupAL (applyOps UserStore.empty ops).users u.email = some u := by
  have hinv := storeInv_applyOps UserStore.empty ops storeInv_empty
  have he : u.email = k := hinv.2.2 k u h
  refine ⟨he, ?_⟩
  rw [he]
  exact mem_lookupAL hinv.1 h

/-- Witness for claim C10: the invariant evaluated on the store reached by
one concrete registration. -/
theorem claim_C10_email_key_coherence_witness :
    aliceUser.email = "a@x.com" ∧
      lookupAL (applyOps UserStore.empty
          [.register 1 10 aliceRegister]).users aliceUser.email
        = some aliceUser :=
  claim_C10_email_key_coherence [.register 1 10 aliceRegister] "a@x.com"
    aliceUser (by decide)

/-! Claim C5. -/

/-- Claim C5: for a profile update changing the email of the user stored
under key A (found by id) to a different email B: if B is already a key of
the store the operation fails with the conflict error and the store is
completely unchanged; otherwise the operation succeeds, a lookup by A
afterwards returns nothing, a lookup by B returns a user with the same id,
and all fields other than email, name and updated_at are unchanged, while
every key other than A and B still maps to its old value. -/
theorem claim_C5_update_user_email_relocation (s : UserStore) (now uid : Nat)
    (A : String) (u0 : User) (B : String) (name? : Option String)
    (hnd : (keysAL s.users).Nodup)
    (hf : findEntryById s.users uid = some (A, u0))
    (hBA : B ≠ A) :
    (containsKeyAL s.users B = true →
      s.update_user now uid { name := name?, email := some B }
        = (.error "Email already in use", s)) ∧
    (containsKeyAL s.users B = false →
      ∃ u1,
        s.update_user now uid { name := name?, email := some B }
          = (.ok { user := u1.to_public,
                   message := "Profile updated successfully" },
             { s with users := insertAL (removeAL s.users A) B u1 }) ∧
        u1.id = u0.id ∧ u1.email = B ∧ u1.name = name?.getD u0.name ∧
        u1.password_hash = u0.password_hash ∧
        u1.created_at = u0.created_at ∧ u1.is_admin = u0.is_admin ∧
        u1.updated_at = now ∧
        lookupAL (insertAL (removeAL s.users A) B u1) A = none ∧
        lookupAL (insertAL (removeAL s.users A) B u1) B = some u1 ∧
        ∀ k, k ≠ A → k ≠ B →
          lookupAL (insertAL (removeAL s.users A) B u1) k
            = lookupAL s.users k) := by
  have hbne : (B != A) = true := bne_iff_ne.mpr hBA
  constructor
  · intro hc
    simp [UserStore.update_user, hf, hbne, hc]
  · intro hc
    refine ⟨u0.update now (some B) name?, ?_, (User.update_fields u0 now (some B) name?).1,
      User.update_email_some u0 now B name?,
      (User.update_fields u0 now (some B) name?).2.2.2.2.2.1,
      (User.update_fields u0 now (some B) name?).2.1,
      (User.update_fields u0 now (some B) name?).2.2.1,
      (User.update_fields u0 now (some B) name?).2.2.2.1,
      (User.update_fields u0 now (some B) name?).2.2.2.2.2.2, ?_, ?_, ?_⟩
    · simp [UserStore.update_user, hf, hbne, hc, removeAL_insertAL_self]
    · exact (lookupAL_insertAL_ne (removeAL s.users A) _ (Ne.symm hBA)).trans
        (lookupAL_removeAL_self hnd)
    · exact lookupAL_insertAL_self (removeAL s.users A) B _
    · intro k hkA hkB
      exact (lookupAL_insertAL_ne (removeAL s.users A) _ hkB).trans
        (lookupAL_removeAL_ne s.users hkA)

/-- Second user of the two-user witness store. -/
def bobUser : User :=
  { id := 2, email := "b@x.com", name := "Bob",
    password_hash := .hashed "An0ther!pw", created_at := 20,
    updated_at := 20, is_admin := false }

/-- Store holding `aliceUser` and `bobUser`. -/
def aliceBobStore : UserStore :=
  { users := [("a@x.com", aliceUser), ("b@x.com", bobUser)],
    password_reset_tokens := [] }

/-- Witness for claim C5: the conflict clause at a taken target email and the
relocation clause at a fresh target email, on a concrete two-user store. -/
theorem claim_C5_update_user_email_relocation_witness :
    aliceBobStore.update_user 60 1 { name := none, email := some "b@x.com" }
        = (.error "Email already in use", aliceBobStore) ∧
    ∃ u1,
      lookupAL (insertAL (removeAL aliceBobStore.users "a@x.com") "c@x.com" u1)
          "a@x.com" = none ∧
      lookupAL (insertAL (removeAL aliceBobStore.users "a@x.com") "c@x.com" u1)
          "c@x.com" = some u1 ∧
      u1.id = aliceUser.id := by
  refine ⟨(claim_C5_update_user_email_relocation aliceBobStore 60 1 "a@x.com"
      aliceUser "b@x.com" none (by decide) (by decide) (by decide)).1 (by decide), ?_⟩
  obtain ⟨u1, -, hid, -, -, -, -, -, -, hA, hB, -⟩ :=
    (claim_C5_update_user_email_relocation aliceBobStore 60 1 "a@x.com"
      aliceUser "c@x.com" none (by decide) (by decide) (by decide)).2 (by decide)
  exact ⟨u1, hA, hB, hid⟩

/-! Claim C1. -/

/-- Ledger holding a token whose email has no user, for the claim C1
counterexample. -/
def ghostTokenStore : UserStore :=
  { users := [], password_reset_tokens := [("tokZ", ("ghost@x.com", 100))] }

/-- Store holding `aliceUser` and an unexpired token for her email, for the
claim C1 counterexample. -/
def aliceTokenStore : UserStore :=
  { users := [("a@x.com", aliceUser)],
    password_reset_tokens := [("tokY", ("a@x.com", 100))] }

/-- Claim C1, counterexample: on a present, unexpired token the entry is NOT
deleted when the rotation step fails — neither when the user lookup by the
token's email fails nor when the new password violates the strength policy;
the token survives in the ledger in both runs. -/
theorem claim_C1_counterexample :
    ((ghostTokenStore.reset_password 50
          { token := "tokZ", new_password := "N3w!passwd" }).1
        = .error "User not found" ∧
      lookupAL (ghostTokenStore.reset_password 50
          { token := "tokZ", new_password := "N3w!passwd" }).2.password_reset_tokens
          "tokZ"
        = some ("ghost@x.com", 100)) ∧
    ((aliceTokenStore.reset_password 50
          { token := "tokY", new_password := "weak" }).1
        = .error "Password must be at least 8 characters long" ∧
      lookupAL (aliceTokenStore.reset_password 50
          { token := "tokY", new_password := "weak" }).2.password_reset_tokens
          "tokY"
        = some ("a@x.com", 100)) := by
  decide

/-- Claim C1, amended: for a consume call on a present, unexpired token, the
token entry is deleted exactly when the subsequent password-rotation step
succeeds; when the rotation fails (the user lookup by the token's email
fails, or the new password violates the strength policy) the overall
operation reports failure and the store — the token entry included — is left
completely unchanged, so the token stays consumable. -/
theorem claim_C1_amended (s : UserStore) (now : Nat)
    (request : ResetPasswordRequest) (email : String) (expiry : Nat)
    (hl : lookupAL s.password_reset_tokens request.token = some (email, expiry))
    (hexp : ¬expiry < now) :
    (∀ r s1, s.reset_password now request = (.ok r, s1) →
      s1.password_reset_tokens
        = removeAL s.password_reset_tokens request.token) ∧
    (∀ e s1, s.reset_password now request = (.error e, s1) → s1 = s) := by
  cases hu : lookupAL s.users email with
  | none =>
    constructor
    · intro r s1 h
      simp [UserStore.reset_password, hl, hexp, hu] at h
    · intro e s1 h
      simp [UserStore.reset_password, hl, hexp, hu] at h
      exact h.2.symm
  | some user =>
    cases hup : user.update_password now request.new_password with
    | error e1 =>
      constructor
      · intro r s1 h
        simp [UserStore.reset_password, hl, hexp, hu, hup] at h
      · intro e s1 h
        simp [UserStore.reset_password, hl, hexp, hu, hup] at h
        exact h.2.symm
    | ok user1 =>
      constructor
      · intro r s1 h
        simp [UserStore.reset_password, hl, hexp, hu, hup] at h
        rw [← h.2]
      · intro e s1 h
        simp [UserStore.reset_password, hl, hexp, hu, hup] at h

/-- Witness for claim C1 as amended: the failing rotation leaves the store of
the counterexample unchanged, and a successful rotation on the concrete
one-user store deletes the token. -/
theorem claim_C1_amended_witness :
    (∀ e s1, ghostTokenStore.reset_password 50
          { token := "tokZ", new_password := "N3w!passwd" } = (.error e, s1) →
        s1 = ghostTokenStore) ∧
    (∀ r s1, aliceTokenStore.reset_password 50
          { token := "tokY", new_password := "N3w!passwd" } = (.ok r, s1) →
        s1.password_reset_tokens = removeAL aliceTokenStore.password_reset_tokens "tokY") :=
  ⟨(claim_C1_amended ghostTokenStore 50
      { token := "tokZ", new_password := "N3w!passwd" } "ghost@x.com" 100
      (by decide) (by decide)).2,
   (claim_C1_amended aliceTokenStore 50
      { token := "tokY", new_password := "N3w!passwd" } "a@x.com" 100
      (by decide) (by decide)).1⟩

/-! Claim C7. -/

/-- Ledger holding one expired token, for the claim C7 counterexample. -/
def expiredTokenStore : UserStore :=
  { users := [], password_reset_tokens := [("tokE", ("a@x.com", 10))] }

/-- Claim C7, counterexample: a present-but-expired token fails with
"Reset token has expired" while a never-issued token fails with
"Invalid or expired reset token" — two different failure outcomes, so a
caller CAN distinguish an expired token from one that never existed. -/
theorem claim_C7_counterexample :
    (expiredTokenStore.reset_password 20
          { token := "tokE", new_password := "N3w!passwd" }).1
        = .error "Reset token has expired" ∧
    (expiredTokenStore.reset_password 20
          { token := "tokN", new_password := "N3w!passwd" }).1
        = .error "Invalid or expired reset token" ∧
    ("Reset token has expired" : String) ≠ "Invalid or expired reset token" := by
  decide

/-- Claim C7, amended: a consume call on a present token whose expiry is
before the current time deletes the entry and fails — but with the message
"Reset token has expired", which differs from the "Invalid or expired reset
token" failure of a never-issued token, so the two failures are
distinguishable; a retry with the same token then fails with the
absent-token message precisely because the entry no longer exists. -/
theorem claim_C7_expired_token_purge (s : UserStore) (now : Nat)
    (request : ResetPasswordRequest) (email : String) (expiry : Nat)
    (hnd : (keysAL s.password_reset_tokens).Nodup)
    (hl : lookupAL s.password_reset_tokens request.token = some (email, expiry))
    (hexp : expiry < now) :
    s.reset_password now request =
      (.error "Reset token has expired",
       { s with password_reset_tokens :=
           removeAL s.password_reset_tokens request.token }) ∧
    ∀ now2 p2,
      ({ s with password_reset_tokens :=
            removeAL s.password_reset_tokens request.token }
          : UserStore).reset_password now2
          { token := request.token, new_password := p2 }
        = (.error "Invalid or expired reset token",
           { s with password_reset_tokens :=
               removeAL s.password_reset_tokens request.token }) := by
  constructor
  · simp [UserStore.reset_password, hl, hexp]
  · intro now2 p2
    have habs : lookupAL (removeAL s.password_reset_tokens request.token)
        request.token = none := lookupAL_removeAL_self hnd
    simp [UserStore.reset_password, habs]

/-- Witness for claim C7 as amended: the expired-token purge and the failing
retry evaluated on the concrete one-token ledger. -/
theorem claim_C7_expired_token_purge_witness :
    expiredTokenStore.reset_password 20
        { token := "tokE", new_password := "N3w!passwd" } =
      (.error "Reset token has expired",
       { expiredTokenStore with
           password_reset_tokens :=
             removeAL expiredTokenStore.password_reset_tokens "tokE" }) ∧
    ∀ now2 p2,
      ({ expiredTokenStore with
           password_reset_tokens :=
             removeAL expiredTokenStore.password_reset_tokens "tokE" }
          : UserStore).reset_password now2
          { token := "tokE", new_password := p2 }
        = (.error "Invalid or expired reset token",
           { expiredTokenStore with
               password_reset_tokens :=
                 removeAL expiredTokenStore.password_reset_tokens "tokE" }) :=
  claim_C7_expired_token_purge expiredTokenStore 20
    { token := "tokE", new_password := "N3w!passwd" } "a@x.com" 10
    (by decide) (by decide) (by decide)

/-! Claim C2. -/

/-- Claim C2, counterexample: the forgot-password endpoint answers 200 with
the generic acknowledgment when the email exists but 404 with "User not
found" when it does not — the two runs are distinguishable to the caller. -/
theorem claim_C2_counterexample :
    (forgot_password_endpoint aliceStore "tokF" 20 { email := "a@x.com" }).reply
        = { status := 200,
            body := "Password reset instructions have been sent to your email" } ∧
    (forgot_password_endpoint aliceStore "tokF" 20
          { email := "missing@x.com" }).reply
        = { status := 404, body := "User not found" } ∧
    (200 : Nat) ≠ 404 := by
  decide

/-- Claim C2, amended: when the email exists, the forgot-password endpoint
answers with the generic acknowledgment — a constant reply independent of the
generated token, which is emitted only to the operator-facing log — but when
no user holds the email the endpoint answers 404 "User not found", so the
caller CAN tell whether the email exists; the reset token itself is still
never returned to the caller. -/
theorem claim_C2_forgot_password_response (s : UserStore)
    (freshToken : String) (now : Nat) (email : String) :
    (containsKeyAL s.users email = true →
      (forgot_password_endpoint s freshToken now { email := email }).reply
          = { status := 200,
              body := "Password reset instructions have been sent to your email" } ∧
      (forgot_password_endpoint s freshToken now { email := email }).operator_log
          = ["Password reset token for " ++ email ++ ": " ++ freshToken]) ∧
    (containsKeyAL s.users email = false →
      (forgot_password_endpoint s freshToken now { email := email }).reply
          = { status := 404, body := "User not found" }) := by
  constructor
  · intro h
    constructor <;>
      simp [forgot_password_endpoint, UserStore.generate_password_reset_token, h]
  · intro h
    simp [forgot_password_endpoint, UserStore.generate_password_reset_token, h]

/-- Witness for claim C2 as amended: both branches evaluated on the concrete
one-user store. -/
theorem claim_C2_forgot_password_response_witness :
    ((forgot_password_endpoint aliceStore "tokF" 20 { email := "a@x.com" }).reply
        = { status := 200,
            body := "Password reset instructions have been sent to your email" } ∧
      (forgot_password_endpoint aliceStore "tokF" 20
            { email := "a@x.com" }).operator_log
        = ["Password reset token for " ++ "a@x.com" ++ ": " ++ "tokF"]) ∧
    (forgot_password_endpoint aliceStore "tokF" 20
          { email := "missing@x.com" }).reply
        = { status := 404, body := "User not found" } :=
  ⟨(claim_C2_forgot_password_response aliceStore "tokF" 20 "a@x.com").1
      (by decide),
   (claim_C2_forgot_password_response aliceStore "tokF" 20 "missing@x.com").2
      (by decide)⟩

/-! Claim C8. Helper lemmas: no operation other than a token issuance ever
adds a ledger entry, so a token absent from the ledger stays absent across
any operations that do not draw that same token string again. -/

theorem register_tokens_eq (s : UserStore) (freshId now : Nat)
    (request : RegisterRequest) :
    (s.register freshId now request).2.password_reset_tokens
      = s.password_reset_tokens := by
  cases hc : containsKeyAL s.users request.email with
  | true => simp [UserStore.register, hc]
  | false =>
    cases hn : User.new freshId now request.email request.name request.password with
    | error e => simp [UserStore.register, hc, hn]
    | ok u => simp [UserStore.register, hc, hn]

theorem create_admin_tokens_eq (s : UserStore) (freshId now : Nat)
    (request : CreateAdminRequest) :
    (s.create_admin freshId now request).2.password_reset_tokens
      = s.password_reset_tokens := by
  cases hc : containsKeyAL s.users request.email with
  | true => simp [UserStore.create_admin, hc]
  | false =>
    cases hn : User.new freshId now request.email request.name request.password with
    | error e => simp [UserStore.create_admin, hc, hn]
    | ok u => simp [UserStore.create_admin, hc, hn]

theorem update_user_tokens_eq (s : UserStore) (now uid : Nat)
    (request : UpdateProfileRequest) :
    (s.update_user now uid request).2.password_reset_tokens
      = s.password_reset_tokens := by
  cases hre : request.email with
  | none =>
    cases hf : findEntryById s.users uid with
    | none => simp [UserStore.update_user, hre, hf]
    | some ku =>
      obtain ⟨old_email, user0⟩ := ku
      simp [UserStore.update_user, hre, hf]
  | some new_email =>
    cases hf : findEntryById s.users uid with
    | none => simp [UserStore.update_user, hre, hf]
    | some ku =>
      obtain ⟨old_email, user0⟩ := ku
      by_cases hne : new_email = old_email
      · subst hne
        simp [UserStore.update_user, hre, hf]
      · have hbne : (new_email != old_email) = true := bne_iff_ne.mpr hne
        cases hcont : containsKeyAL s.users new_email with
        | true => simp [UserStore.update_user, hre, hf, hbne, hcont]
        | false => simp [UserStore.update_user, hre, hf, hbne, hcont]

theorem update_password_tokens_eq (s : UserStore) (now uid : Nat)
    (request : UpdatePasswordRequest) :
    (s.update_password now uid request).2.password_reset_tokens
      = s.password_reset_tokens := by
  cases hf : findEntryById s.users uid with
  | none => simp [UserStore.update_password, hf]
  | some ku =>
    obtain ⟨email, user⟩ := ku
    cases hv : user.verify_password request.current_password with
    | error e => simp [UserStore.update_password, hf, hv]
    | ok b =>
      cases b with
      | false => simp [UserStore.update_password, hf, hv]
      | true =>
        cases hup : user.update_password now request.new_password with
        | error e => simp [UserStore.update_password, hf, hv, hup]
        | ok u1 => simp [UserStore.update_password, hf, hv, hup]

theorem delete_user_tokens_eq (s : UserStore) (uid : Nat) :
    (s.delete_user uid).2.password_reset_tokens = s.password_reset_tokens := by
  cases hf : findEntryById s.users uid with
  | none => simp [UserStore.delete_user, hf]
  | some ku =>
    obtain ⟨email, user⟩ := ku
    simp [UserStore.delete_user, hf]

theorem update_user_role_tokens_eq (s : UserStore) (now uid : Nat)
    (request : UpdateRoleRequest) :
    (s.update_user_role now uid request).2.password_reset_tokens
      = s.password_reset_tokens := by
  cases hf : findEntryById s.users uid with
  | none => simp [UserStore.update_user_role, hf]
  | some ku =>
    obtain ⟨email, user⟩ := ku
    simp [UserStore.update_user_role, hf]

theorem token_absent_apply (s : UserStore) (t : String) (op : StoreOp)
    (h : lookupAL s.password_reset_tokens t = none)
    (hop : op.issuesToken t = false) :
    lookupAL (op.apply s).password_reset_tokens t = none := by
  cases op with
  | register freshId now request =>
    rw [StoreOp.apply, register_tokens_eq]
    exact h
  | create_admin freshId now request =>
    rw [StoreOp.apply, create_admin_tokens_eq]
    exact h
  | login now request => exact h
  | update_user now uid request =>
    rw [StoreOp.apply, update_user_tokens_eq]
    exact h
  | update_password now uid request =>
    rw [StoreOp.apply, update_password_tokens_eq]
    exact h
  | delete_user uid =>
    rw [StoreOp.apply, delete_user_tokens_eq]
    exact h
  | update_user_role now uid request =>
    rw [StoreOp.apply, update_user_role_tokens_eq]
    exact h
  | generate_password_reset_token tok now email =>
    have hne : tok ≠ t := by simpa [StoreOp.issuesToken] using hop
    cases hc : containsKeyAL s.users email with
    | false =>
      simp [StoreOp.apply, UserStore.generate_password_reset_token, hc]
      exact h
    | true =>
      simp only [StoreOp.apply, UserStore.generate_password_reset_token, hc,
        Bool.not_true, Bool.false_eq_true, if_false]
      rw [lookupAL_insertAL_ne _ _ (Ne.symm hne)]
      exact h
  | reset_password now request =>
    cases hl : lookupAL s.password_reset_tokens request.token with
    | none =>
      simp [StoreOp.apply, UserStore.reset_password, hl]
      exact h
    | some ev =>
      obtain ⟨email, expiry⟩ := ev
      by_cases hex : expiry < now
      · simp [StoreOp.apply, UserStore.reset_password, hl, hex]
        exact lookupAL_removeAL_of_none h
      · cases hu : lookupAL s.users email with
        | none =>
          simp [StoreOp.apply, UserStore.reset_password, hl, hex, hu]
          exact h
        | some user =>
          cases hup : user.update_password now request.new_password with
          | error e =>
            simp [StoreOp.apply, UserStore.reset_password, hl, hex, hu, hup]
            exact h
          | ok user1 =>
            simp [StoreOp.apply, UserStore.reset_password, hl, hex, hu, hup]
            exact lookupAL_removeAL_of_none h

theorem token_absent_applyOps (s : UserStore) (t : String)
    (ops : List StoreOp) (h : lookupAL s.password_reset_tokens t = none)
    (hops : ∀ op ∈ ops, op.issuesToken t = false) :
    lookupAL (applyOps s ops).password_reset_tokens t = none := by
  induction ops generalizing s with
  | nil => exact h
  | cons op rest ih =>
    exact ih _
      (token_absent_apply s t op h (hops op (List.mem_cons_self _ _)))
      (fun o ho => hops o (List.mem_cons_of_mem _ ho))

/-- Claim C8: once a consume call on a reset token succeeded, every later
consume call with that same token fails (and changes nothing), for every new
password, across any interleaving of public store operations — provided no
later issuance draws the very same token string again, which models the
freshness of `Uuid::new_v4` token generation. -/
theorem claim_C8_reset_token_single_use (s : UserStore) (now : Nat)
    (request : ResetPasswordRequest) (r : MessageResponse) (s1 : UserStore)
    (hnd : (keysAL s.password_reset_tokens).Nodup)
    (hok : s.reset_password now request = (.ok r, s1))
    (ops : List StoreOp)
    (hops : ∀ op ∈ ops, op.issuesToken request.token = false)
    (now2 : Nat) (p2 : String) :
    (applyOps s1 ops).reset_password now2
        { token := request.token, new_password := p2 }
      = (.error "Invalid or expired reset token", applyOps s1 ops) := by
  have hs1 : lookupAL s1.password_reset_tokens request.token = none := by
    cases hl : lookupAL s.password_reset_tokens request.token with
    | none => simp [UserStore.reset_password, hl] at hok
    | some ev =>
      obtain ⟨email, expiry⟩ := ev
      by_cases hex : expiry < now
      · simp [UserStore.reset_password, hl, hex] at hok
      · cases hu : lookupAL s.users email with
        | none => simp [UserStore.reset_password, hl, hex, hu] at hok
        | some user =>
          cases hup : user.update_password now request.new_password with
          | error e => simp [UserStore.reset_password, hl, hex, hu, hup] at hok
          | ok user1 =>
            simp [UserStore.reset_password, hl, hex, hu, hup] at hok
            rw [← hok.2]
            exact lookupAL_removeAL_self hnd
  have habs := token_absent_applyOps s1 request.token ops hs1 hops
  simp [UserStore.reset_password, habs]

/-- Stores of the claim C8 witness: a registration followed by a token
issuance, then the successful consume of that token. -/
def c8Issued : UserStore :=
  applyOps UserStore.empty
    [.register 1 10 aliceRegister,
     .generate_password_reset_token "tok1" 20 "a@x.com"]

/-- The store after the successful consume of "tok1". -/
def c8Consumed : UserStore :=
  (c8Issued.reset_password 30
    { token := "tok1", new_password := "N3w!passwd" }).2

/-- Witness for claim C8: after the concrete successful consume, the retry
with the same token and a new password fails and changes nothing. -/
theorem claim_C8_reset_token_single_use_witness :
    c8Consumed.reset_password 40 { token := "tok1", new_password := "An0ther!pw" }
      = (.error "Invalid or expired reset token", c8Consumed) :=
  claim_C8_reset_token_single_use c8Issued 30
    { token := "tok1", new_password := "N3w!passwd" }
    { message := "Password reset successfully" } c8Consumed
    (by decide) (by decide) []
    (by intro op hop; exact absurd hop (List.not_mem_nil op)) 40 "An0ther!pw"

end Sushi
